import Mathlib

/-!
Shallow embedding of the ownership / soft-enable-disable resource lifecycle
core of the paperbook e-commerce backend, illustrated by its UserService
(src/unnamed/part_000), together with the shopping-cart controller and the
order update payload.  Stores are modelled as lists of entities; TypeORM
calls (findOne, update, delete, save) become explicit list operations; a
thrown exception becomes an error value.  Mutating operations return the
store paired with an optional error so that "failed call leaves the store
untouched" is expressible.
-/

namespace Paperbook

/-- Modelled from the spec: the roles enumeration (src/models/enums/roles.enum
is absent from src).  The spec names a small closed set of roles:
Admin, Seller, User (also called Common). -/
inductive RolesEnum where
  | user
  | seller
  | admin
  deriving DecidableEq, Repr

/-- The identity context of the authenticated caller (RequestUser in
src/utils/type.shared): an id and a role. -/
structure RequestUser where
  id : Nat
  roles : RolesEnum
  deriving DecidableEq, Repr

/-- Modelled from the spec: isAdminUser (src/utils/validations is absent from
src).  The spec says the privileged branch of the ownership policy is
callerIdentity.role == Admin. -/
def isAdminUser (requestUser : RequestUser) : Bool :=
  match requestUser.roles with
  | RolesEnum.admin => true
  | _ => false

/-- The user entity row: id and isActive come from BaseEntity, the remaining
fields from the user entity (entity file absent from src; fields modelled
from the spec's description of a User record with credential fields and a
role that defaults on creation). -/
structure UserEntity where
  id : Nat
  isActive : Bool
  name : String
  email : String
  password : String
  roles : RolesEnum
  deriving DecidableEq, Repr

/-- The user table: the stored rows plus the generator for the next id. -/
structure UserStore where
  users : List UserEntity
  nextId : Nat
  deriving Repr

/-- TypeORM findOne with an id filter: the first stored row whose id matches. -/
def findOne (db : UserStore) (userId : Nat) : Option UserEntity :=
  db.users.find? (fun e => e.id == userId)

/-- TypeORM update with an id filter: apply the field patch f to every row
whose id matches. -/
def updateWhere (db : UserStore) (userId : Nat) (f : UserEntity → UserEntity) :
    UserStore :=
  { db with users := db.users.map (fun e => if e.id == userId then f e else e) }

/-- The single-field state flip used by disable and enable. -/
def setIsActive (db : UserStore) (userId : Nat) (b : Bool) : UserStore :=
  updateWhere db userId (fun e => { e with isActive := b })

/-- TypeORM delete with an id filter: remove every row whose id matches. -/
def deleteWhere (db : UserStore) (userId : Nat) : UserStore :=
  { db with users := db.users.filter (fun e => e.id != userId) }

/-- The error taxonomy of the service layer: EntityNotFoundException,
ForbiddenException, EntityAlreadyDisabledException,
EntityAlreadyEnabledException. -/
inductive ServiceError where
  | entityNotFound (id : Nat)
  | forbidden
  | entityAlreadyDisabled (id : Nat)
  | entityAlreadyEnabled (id : Nat)
  deriving DecidableEq, Repr

/-- UserService.hasPermissions: the ownership policy.  True when the target
entity id equals the caller's id or the caller is an admin. -/
def hasPermissions (entityId : Nat) (requestUser : RequestUser) : Bool :=
  entityId == requestUser.id || isAdminUser requestUser

/-- Modelled from the spec: encryptPassword (src/utils/password is absent from
src).  The spec says passwords pass through a one-way secure hashing
transform before storage; the model prefixes a hash tag so that the stored
text is a function of the plaintext but never equal to it. -/
def encryptPassword (password : String) : String :=
  "$2a$08$" ++ password

/-- CreateUserPayload (payload file absent from src; fields modelled from the
spec: entity-specific fields plus an optional roles value). -/
structure CreateUserPayload where
  name : String
  email : String
  password : String
  roles : Option RolesEnum
  deriving Repr

/-- UserService.create: builds the entity from the payload, hashes the
password, defaults the roles to RolesEnum.User when absent, and saves it,
the store assigning the generated id and the default isActive = true. -/
def UserService.create (db : UserStore) (payload : CreateUserPayload) :
    UserEntity × UserStore :=
  let entity : UserEntity :=
    { id := db.nextId
      isActive := true
      name := payload.name
      email := payload.email
      password := encryptPassword payload.password
      roles := payload.roles.getD RolesEnum.user }
  (entity, { users := db.users ++ [entity], nextId := db.nextId + 1 })

/-- UserService.get (the findOne path; the optional crudRequest path adds an
id filter to the caller's query and behaves the same on the id lookup):
NotFound when the row is absent or inactive, Forbidden when the caller lacks
permission, otherwise the entity. -/
def UserService.get (db : UserStore) (userId : Nat)
    (requestUser : RequestUser) : Except ServiceError UserEntity :=
  match findOne db userId with
  | none => Except.error (ServiceError.entityNotFound userId)
  | some entity =>
    if !entity.isActive then Except.error (ServiceError.entityNotFound userId)
    else if !(hasPermissions entity.id requestUser) then
      Except.error ServiceError.forbidden
    else Except.ok entity

/-- UpdateUserPaylaod (name kept with the source's spelling; payload file
absent from src; fields modelled from the spec: a field-level patch that
carries no id, ownerId or isActive field). -/
structure UpdateUserPaylaod where
  name : Option String
  email : Option String
  deriving Repr

/-- Application of the field-level patch: only the fields present in the
payload are written, as TypeORM update does with a partial object. -/
def applyUpdateUserPaylaod (e : UserEntity) (p : UpdateUserPaylaod) :
    UserEntity :=
  { e with name := p.name.getD e.name, email := p.email.getD e.email }

/-- UserService.update: guard sequence (absent or inactive row is NotFound,
then the permission check), then the field patch through the repository. -/
def UserService.update (db : UserStore) (userId : Nat)
    (requestUser : RequestUser) (payload : UpdateUserPaylaod) :
    UserStore × Option ServiceError :=
  match findOne db userId with
  | none => (db, some (ServiceError.entityNotFound userId))
  | some entity =>
    if !entity.isActive then (db, some (ServiceError.entityNotFound userId))
    else if !(hasPermissions entity.id requestUser) then
      (db, some ServiceError.forbidden)
    else (updateWhere db userId (fun e => applyUpdateUserPaylaod e payload),
      none)

/-- UserService.delete: guard sequence, then hard removal. -/
def UserService.delete (db : UserStore) (userId : Nat)
    (requestUser : RequestUser) : UserStore × Option ServiceError :=
  match findOne db userId with
  | none => (db, some (ServiceError.entityNotFound userId))
  | some entity =>
    if !entity.isActive then (db, some (ServiceError.entityNotFound userId))
    else if !(hasPermissions entity.id requestUser) then
      (db, some ServiceError.forbidden)
    else (deleteWhere db userId, none)

/-- UserService.disable: NotFound when absent, AlreadyDisabled when already
inactive, then the permission check, then the single-field flip to
isActive = false. -/
def UserService.disable (db : UserStore) (userId : Nat)
    (requestUser : RequestUser) : UserStore × Option ServiceError :=
  match findOne db userId with
  | none => (db, some (ServiceError.entityNotFound userId))
  | some entity =>
    if !entity.isActive then
      (db, some (ServiceError.entityAlreadyDisabled userId))
    else if !(hasPermissions entity.id requestUser) then
      (db, some ServiceError.forbidden)
    else (setIsActive db userId false, none)

/-- UserService.enable: NotFound when absent, AlreadyEnabled when already
active, then the permission check, then the single-field flip to
isActive = true. -/
def UserService.enable (db : UserStore) (userId : Nat)
    (requestUser : RequestUser) : UserStore × Option ServiceError :=
  match findOne db userId with
  | none => (db, some (ServiceError.entityNotFound userId))
  | some entity =>
    if entity.isActive then
      (db, some (ServiceError.entityAlreadyEnabled userId))
    else if !(hasPermissions entity.id requestUser) then
      (db, some ServiceError.forbidden)
    else (setIsActive db userId true, none)

/-- The address entity row (id and isActive from BaseEntity, userId the
owning user's id; the remaining entity-specific fields are irrelevant to the
guard sequence and omitted). -/
structure AddressEntity where
  id : Nat
  userId : Nat
  isActive : Bool
  deriving DecidableEq, Repr

/-- The product entity row (id and isActive from BaseEntity, userId the
selling user's id). -/
structure ProductEntity where
  id : Nat
  userId : Nat
  isActive : Bool
  deriving DecidableEq, Repr

/-- The order entity row: id and isActive from BaseEntity, userId the owning
user's id, plus the status (a numeric enum in the source) and trackingCode
fields that UpdateOrderPayload patches. -/
structure OrderEntity where
  id : Nat
  userId : Nat
  isActive : Bool
  status : Nat
  trackingCode : String
  deriving DecidableEq, Repr

/-- Modelled from the spec: AddressService.getMany as delegated to by
UserService.getAddressesByUserId (the address service is absent from src).
The user service adds a userId equality filter to the request before
delegating, so the delegated listing is the rows filtered by the owning
user id. -/
def AddressService.getMany (addresses : List AddressEntity) (userId : Nat) :
    List AddressEntity :=
  addresses.filter (fun a => a.userId == userId)

/-- Modelled from the spec: ProductService.getMany as delegated to by
UserService.getProductsByUserId (the product service is absent from src). -/
def ProductService.getMany (products : List ProductEntity) (userId : Nat) :
    List ProductEntity :=
  products.filter (fun p => p.userId == userId)

/-- Modelled from the spec: OrderService.getMany as delegated to by
UserService.getOrdersByUserId (the order service is absent from src). -/
def OrderService.getMany (orders : List OrderEntity) (userId : Nat) :
    List OrderEntity :=
  orders.filter (fun o => o.userId == userId)

/-- UserService.getAddressesByUserId: existence and active checks on the
target user, then the permission check, then delegation to the address
service with the userId filter added. -/
def UserService.getAddressesByUserId (db : UserStore)
    (addresses : List AddressEntity) (userId : Nat)
    (requestUser : RequestUser) : Except ServiceError (List AddressEntity) :=
  match findOne db userId with
  | none => Except.error (ServiceError.entityNotFound userId)
  | some entity =>
    if !entity.isActive then Except.error (ServiceError.entityNotFound userId)
    else if !(hasPermissions entity.id requestUser) then
      Except.error ServiceError.forbidden
    else Except.ok (AddressService.getMany addresses userId)

/-- UserService.getProductsByUserId: the source takes no requestUser argument
and performs no permission check — only the existence and active checks on
the target user — before delegating to the product service. -/
def UserService.getProductsByUserId (db : UserStore)
    (products : List ProductEntity) (userId : Nat) :
    Except ServiceError (List ProductEntity) :=
  match findOne db userId with
  | none => Except.error (ServiceError.entityNotFound userId)
  | some entity =>
    if !entity.isActive then Except.error (ServiceError.entityNotFound userId)
    else Except.ok (ProductService.getMany products userId)

/-- UserService.getOrdersByUserId: existence and active checks on the target
user, then the permission check, then delegation to the order service with
the userId filter added. -/
def UserService.getOrdersByUserId (db : UserStore)
    (orders : List OrderEntity) (userId : Nat)
    (requestUser : RequestUser) : Except ServiceError (List OrderEntity) :=
  match findOne db userId with
  | none => Except.error (ServiceError.entityNotFound userId)
  | some entity =>
    if !entity.isActive then Except.error (ServiceError.entityNotFound userId)
    else if !(hasPermissions entity.id requestUser) then
      Except.error ServiceError.forbidden
    else Except.ok (OrderService.getMany orders userId)

/-- UpdateOrderPayload (src/src/modules/order/models/update-order.payload.ts):
two optional fields, status (a numeric enum) and trackingCode; no id, userId
or isActive field exists on the payload. -/
structure UpdateOrderPayload where
  status : Option Nat
  trackingCode : Option String
  deriving Repr

/-- Application of the order field patch: only the fields present in the
payload are written. -/
def applyUpdateOrderPayload (o : OrderEntity) (p : UpdateOrderPayload) :
    OrderEntity :=
  { o with
    status := p.status.getD o.status
    trackingCode := p.trackingCode.getD o.trackingCode }

/-- The shopping cart entity row (id and isActive from BaseEntity, userId the
owning user's id). -/
structure ShoppingCartEntity where
  id : Nat
  userId : Nat
  isActive : Bool
  deriving DecidableEq, Repr

/-- The shopping cart table. -/
structure ShoppingCartStore where
  carts : List ShoppingCartEntity
  deriving Repr

/-- Modelled from the spec: UpdateShoppingCartPayload (payload file absent
from src) — an entity-specific field patch carrying no id, userId or
isActive field. -/
structure UpdateShoppingCartPayload where
  productAmount : Option Nat
  deriving Repr

/-- Lookup of a cart row by id. -/
def ShoppingCartStore.findOne (s : ShoppingCartStore) (cartId : Nat) :
    Option ShoppingCartEntity :=
  s.carts.find? (fun c => c.id == cartId)

/-- The single-field state flip on the cart table. -/
def ShoppingCartStore.setIsActive (s : ShoppingCartStore) (cartId : Nat)
    (b : Bool) : ShoppingCartStore :=
  { s with
    carts := s.carts.map
      (fun c => if c.id == cartId then { c with isActive := b } else c) }

/-- Modelled from the spec: ShoppingCartService.update (the service file is
absent from src).  The controller calls it with the cart id and the payload
only — no caller identity — so the service can apply the lifecycle guard but
no ownership check. -/
def ShoppingCartService.update (s : ShoppingCartStore) (cartId : Nat)
    (_payload : UpdateShoppingCartPayload) :
    ShoppingCartStore × Option ServiceError :=
  match s.findOne cartId with
  | none => (s, some (ServiceError.entityNotFound cartId))
  | some entity =>
    if !entity.isActive then (s, some (ServiceError.entityNotFound cartId))
    else (s, none)

/-- Modelled from the spec: ShoppingCartService.disable (service file absent
from src); lifecycle guard then the state flip, with no identity argument
and hence no ownership check. -/
def ShoppingCartService.disable (s : ShoppingCartStore) (cartId : Nat) :
    ShoppingCartStore × Option ServiceError :=
  match s.findOne cartId with
  | none => (s, some (ServiceError.entityNotFound cartId))
  | some entity =>
    if !entity.isActive then
      (s, some (ServiceError.entityAlreadyDisabled cartId))
    else (s.setIsActive cartId false, none)

/-- Modelled from the spec: ShoppingCartService.enable (service file absent
from src); lifecycle guard then the state flip, with no identity argument
and hence no ownership check. -/
def ShoppingCartService.enable (s : ShoppingCartStore) (cartId : Nat) :
    ShoppingCartStore × Option ServiceError :=
  match s.findOne cartId with
  | none => (s, some (ServiceError.entityNotFound cartId))
  | some entity =>
    if entity.isActive then
      (s, some (ServiceError.entityAlreadyEnabled cartId))
    else (s.setIsActive cartId true, none)

/-- The error taxonomy at the controller boundary: the role guard's rejection
or a service error passed through. -/
inductive ControllerError where
  | unauthorized
  | service (e : ServiceError)
  deriving DecidableEq, Repr

/-- Modelled from the spec: the ProtectTo role guard (decorator file absent
from src) admits the caller when its role is among the listed roles. -/
def protectTo (allowed : List RolesEnum) (requestUser : RequestUser) : Bool :=
  allowed.contains requestUser.roles

/-- ShoppingCartController.update: the route is protected to Admin, and the
handler passes only the cart id and the payload to the service — the caller
identity is not forwarded. -/
def ShoppingCartController.update (requestUser : RequestUser)
    (s : ShoppingCartStore) (cartId : Nat)
    (payload : UpdateShoppingCartPayload) :
    ShoppingCartStore × Option ControllerError :=
  if !(protectTo [RolesEnum.admin] requestUser) then
    (s, some ControllerError.unauthorized)
  else
    let r := ShoppingCartService.update s cartId payload
    (r.fst, r.snd.map ControllerError.service)

/-- ShoppingCartController.disable: protected to Admin; only the cart id
reaches the service. -/
def ShoppingCartController.disable (requestUser : RequestUser)
    (s : ShoppingCartStore) (cartId : Nat) :
    ShoppingCartStore × Option ControllerError :=
  if !(protectTo [RolesEnum.admin] requestUser) then
    (s, some ControllerError.unauthorized)
  else
    let r := ShoppingCartService.disable s cartId
    (r.fst, r.snd.map ControllerError.service)

/-- ShoppingCartController.enable: protected to Admin; only the cart id
reaches the service. -/
def ShoppingCartController.enable (requestUser : RequestUser)
    (s : ShoppingCartStore) (cartId : Nat) :
    ShoppingCartStore × Option ControllerError :=
  if !(protectTo [RolesEnum.admin] requestUser) then
    (s, some ControllerError.unauthorized)
  else
    let r := ShoppingCartService.enable s cartId
    (r.fst, r.snd.map ControllerError.service)

section Fixtures

/-- An active stored user with id 1, used as a concrete scenario. -/
def aliceRow : UserEntity :=
  { id := 1, isActive := true, name := "Alice", email := "a"
    password := "h", roles := RolesEnum.user }

/-- A one-row user table holding aliceRow. -/
def demoDb : UserStore := { users := [aliceRow], nextId := 2 }

/-- The owner identity matching aliceRow. -/
def aliceUser : RequestUser := { id := 1, roles := RolesEnum.user }

/-- A non-owner, non-admin identity. -/
def bobUser : RequestUser := { id := 2, roles := RolesEnum.user }

/-- An admin identity distinct from aliceRow's id. -/
def adminUser : RequestUser := { id := 9, roles := RolesEnum.admin }

/-- An inactive stored user with id 4. -/
def carolRow : UserEntity :=
  { id := 4, isActive := false, name := "Carol", email := "c"
    password := "h", roles := RolesEnum.user }

/-- A user table holding one active and one inactive row. -/
def demoDb2 : UserStore := { users := [aliceRow, carolRow], nextId := 5 }

/-- One stored address owned by user 1. -/
def demoAddresses : List AddressEntity :=
  [{ id := 7, userId := 1, isActive := true }]

/-- One stored product sold by user 1. -/
def demoProducts : List ProductEntity :=
  [{ id := 10, userId := 1, isActive := true }]

/-- One stored order owned by user 1. -/
def demoOrders : List OrderEntity :=
  [{ id := 20, userId := 1, isActive := true, status := 0,
     trackingCode := "t" }]

/-- One stored shopping cart, id 3, owned by user 5. -/
def demoCart : ShoppingCartEntity := { id := 3, userId := 5, isActive := true }

/-- A one-row shopping cart table. -/
def demoCarts : ShoppingCartStore := { carts := [demoCart] }

end Fixtures

section Lemmas

/-- The ownership policy in propositional form. -/
lemma hasPermissions_iff (o : Nat) (u : RequestUser) :
    hasPermissions o u = true ↔ (o = u.id ∨ u.roles = RolesEnum.admin) := by
  obtain ⟨uid, ur⟩ := u
  cases ur <;> simp [hasPermissions, isAdminUser]

/-- A row found by an id filter carries that id. -/
lemma findOne_id {db : UserStore} {i : Nat} {e : UserEntity}
    (h : findOne db i = some e) : e.id = i := by
  have := List.find?_some h
  simpa using this

/-- Finding by key after patching exactly the matching rows with a
key-preserving patch finds the patched row. -/
lemma find?_map_ite {α : Type} (key : α → Nat) (i : Nat) (f : α → α)
    (hf : ∀ e, key (f e) = key e) (l : List α) :
    (l.map (fun e => if key e == i then f e else e)).find?
        (fun e => key e == i)
      = (l.find? (fun e => key e == i)).map f := by
  induction l with
  | nil => rfl
  | cons a l ih =>
    simp only [List.map_cons]
    by_cases h : (key a == i) = true
    · rw [if_pos h]
      rw [List.find?_cons_of_pos (p := fun e => key e == i) _
        (show ((key (f a) == i) = true) by rw [hf]; exact h)]
      rw [List.find?_cons_of_pos (p := fun e => key e == i) _ h]
      rfl
    · rw [if_neg h]
      rw [List.find?_cons_of_neg (p := fun e => key e == i) _ h,
        List.find?_cons_of_neg (p := fun e => key e == i) _ h]
      exact ih

/-- Patching exactly the matching rows with a patch invisible to a
projection leaves that projection of the table unchanged. -/
lemma map_map_ite {α β : Type} (key : α → Nat) (i : Nat) (f : α → α)
    (g : α → β) (hg : ∀ e, g (f e) = g e) (l : List α) :
    (l.map (fun e => if key e == i then f e else e)).map g = l.map g := by
  induction l with
  | nil => rfl
  | cons a l ih =>
    simp only [List.map_cons]
    by_cases h : (key a == i) = true
    · rw [if_pos h, hg a, ih]
    · rw [if_neg h, ih]

/-- Appending a row with a key absent from the table makes lookup of that
key find the appended row. -/
lemma find?_append_fresh {α : Type} (key : α → Nat) (i : Nat)
    (l : List α) (hl : ∀ e ∈ l, key e ≠ i) (x : α) (hx : key x = i) :
    (l ++ [x]).find? (fun e => key e == i) = some x := by
  induction l with
  | nil => simp [hx]
  | cons a l ih =>
    have ha : key a ≠ i := hl a (by simp)
    have : (l ++ [x]).find? (fun e => key e == i) = some x :=
      ih (fun e he => hl e (by simp [he]))
    simp [ha, this]

end Lemmas

section Claims

/-- Claim C1: for every resource owner id o and caller identity u, the
ownership policy hasPermissions o u returns true if and only if o equals
u.id or u.roles is Admin.  hasPermissions is a plain Lean function of its
two arguments, hence pure and total with no side effects. -/
theorem claim_C1 (o : Nat) (u : RequestUser) :
    hasPermissions o u = true ↔ (o = u.id ∨ u.roles = RolesEnum.admin) :=
  hasPermissions_iff o u

/-- Claim C2: get returns the stored resource exactly when it is active and
the caller is its owner or an Admin; it is NotFound when the row is absent
or inactive, and Forbidden when the row is active but the caller is neither
the owner nor an Admin. -/
theorem claim_C2 (db : UserStore) (userId : Nat) (u : RequestUser) :
    (∀ e : UserEntity, UserService.get db userId u = Except.ok e ↔
      (findOne db userId = some e ∧ e.isActive = true ∧
        (u.id = e.id ∨ u.roles = RolesEnum.admin))) ∧
    (UserService.get db userId u =
        Except.error (ServiceError.entityNotFound userId) ↔
      (findOne db userId = none ∨
        ∃ e, findOne db userId = some e ∧ e.isActive = false)) ∧
    (UserService.get db userId u = Except.error ServiceError.forbidden ↔
      ∃ e, findOne db userId = some e ∧ e.isActive = true ∧
        ¬(u.id = e.id ∨ u.roles = RolesEnum.admin)) := by
  cases hf : findOne db userId with
  | none => simp [UserService.get, hf]
  | some e0 =>
    by_cases ha : e0.isActive = true
    · by_cases hp : hasPermissions e0.id u = true
      · have hp' : (u.id = e0.id ∨ u.roles = RolesEnum.admin) := by
          rcases (hasPermissions_iff e0.id u).mp hp with h | h
          · exact Or.inl h.symm
          · exact Or.inr h
        have hget : UserService.get db userId u = Except.ok e0 := by
          unfold UserService.get
          rw [hf]
          simp [ha, hp]
        refine ⟨?_, ?_, ?_⟩
        · intro e
          rw [hget]
          constructor
          · intro h
            injection h with h
            subst h
            exact ⟨rfl, ha, hp'⟩
          · rintro ⟨h1, -, -⟩
            injection h1 with h1
            rw [h1]
        · rw [hget]
          constructor
          · intro h
            exact Except.noConfusion h
          · rintro (h | ⟨e, h1, h2⟩)
            · exact Option.noConfusion h
            · injection h1 with h1
              subst h1
              rw [ha] at h2
              exact Bool.noConfusion h2
        · rw [hget]
          constructor
          · intro h
            exact Except.noConfusion h
          · rintro ⟨e, h1, -, hnp⟩
            injection h1 with h1
            subst h1
            exact absurd hp' hnp
      · have hp' : ¬(u.id = e0.id ∨ u.roles = RolesEnum.admin) := by
          intro hc
          apply hp
          apply (hasPermissions_iff e0.id u).mpr
          rcases hc with h | h
          · exact Or.inl h.symm
          · exact Or.inr h
        have hget : UserService.get db userId u =
            Except.error ServiceError.forbidden := by
          unfold UserService.get
          rw [hf]
          simp [ha, hp]
        refine ⟨?_, ?_, ?_⟩
        · intro e
          rw [hget]
          constructor
          · intro h
            exact Except.noConfusion h
          · rintro ⟨h1, -, hpe⟩
            injection h1 with h1
            subst h1
            exact absurd hpe hp'
        · rw [hget]
          constructor
          · intro h
            injection h with h
            exact ServiceError.noConfusion h
          · rintro (h | ⟨e, h1, h2⟩)
            · exact Option.noConfusion h
            · injection h1 with h1
              subst h1
              rw [ha] at h2
              exact Bool.noConfusion h2
        · rw [hget]
          constructor
          · intro _
            exact ⟨e0, rfl, ha, hp'⟩
          · intro _
            rfl
    · have ha' : e0.isActive = false := by
        cases hb : e0.isActive
        · rfl
        · exact absurd hb ha
      have hget : UserService.get db userId u =
          Except.error (ServiceError.entityNotFound userId) := by
        unfold UserService.get
        rw [hf]
        simp [ha']
      refine ⟨?_, ?_, ?_⟩
      · intro e
        rw [hget]
        constructor
        · intro h
          exact Except.noConfusion h
        · rintro ⟨h1, h2, -⟩
          injection h1 with h1
          subst h1
          rw [ha'] at h2
          exact Bool.noConfusion h2
      · rw [hget]
        constructor
        · intro _
          exact Or.inr ⟨e0, rfl, ha'⟩
        · intro _
          rfl
      · rw [hget]
        constructor
        · intro h
          injection h with h
          exact ServiceError.noConfusion h
        · rintro ⟨e, h1, h2, -⟩
          injection h1 with h1
          subst h1
          rw [ha'] at h2
          exact Bool.noConfusion h2

/-- Claim C8: whenever update, delete, disable or enable reports an error,
the returned store is exactly the input store — the guard failures happen
before any repository mutation, so failed calls are atomic.  The read
operations get and the getRelated listings return no store at all, so they
mutate nothing by construction. -/
theorem claim_C8 (db : UserStore) (userId : Nat) (u : RequestUser)
    (p : UpdateUserPaylaod) :
    (∀ db' err, UserService.update db userId u p = (db', some err) →
      db' = db) ∧
    (∀ db' err, UserService.delete db userId u = (db', some err) →
      db' = db) ∧
    (∀ db' err, UserService.disable db userId u = (db', some err) →
      db' = db) ∧
    (∀ db' err, UserService.enable db userId u = (db', some err) →
      db' = db) := by
  refine ⟨?_, ?_, ?_, ?_⟩ <;>
    · intro db' err h
      first
        | unfold UserService.update at h
        | unfold UserService.delete at h
        | unfold UserService.disable at h
        | unfold UserService.enable at h
      repeat' split at h
      all_goals
        first
          | (injection h with h1 h2; exact h1.symm)
          | (injection h with h1 h2; exact Option.noConfusion h2)

/-- Claim C9: create stores the default role RolesEnum.User when the payload
carries no roles value, and stores the supplied roles value unchanged
otherwise. -/
theorem claim_C9 (db : UserStore) (p : CreateUserPayload) :
    (p.roles = none →
      (UserService.create db p).fst.roles = RolesEnum.user) ∧
    (∀ r, p.roles = some r → (UserService.create db p).fst.roles = r) := by
  constructor
  · intro h
    simp [UserService.create, h]
  · intro r h
    simp [UserService.create, h]

/-- Claim C5 (evaluation at the failing input): the products listing of user
1 takes no caller identity at all and returns the listing with no Forbidden
check, while the addresses and orders listings reject the non-owner,
non-admin caller bobUser with Forbidden. -/
theorem claim_C5 :
    UserService.getProductsByUserId demoDb demoProducts 1 =
      Except.ok [{ id := 10, userId := 1, isActive := true }] ∧
    UserService.getAddressesByUserId demoDb demoAddresses 1 bobUser =
      Except.error ServiceError.forbidden ∧
    UserService.getOrdersByUserId demoDb demoOrders 1 bobUser =
      Except.error ServiceError.forbidden :=
  ⟨rfl, rfl, rfl⟩

/-- Claim C6: the user field patch never changes id or isActive, the order
field patch never changes id, userId or isActive, the update operation
leaves the (id, isActive) projection of the whole table unchanged and, on
success, replaces the target row by exactly the patched row; disable and
enable never change any stored id — so no exposed operation reassigns the
owning id. -/
theorem claim_C6 (e : UserEntity) (p : UpdateUserPaylaod) (o : OrderEntity)
    (q : UpdateOrderPayload) (db : UserStore) (userId : Nat)
    (u : RequestUser) :
    ((applyUpdateUserPaylaod e p).id = e.id ∧
      (applyUpdateUserPaylaod e p).isActive = e.isActive ∧
      (applyUpdateUserPaylaod e p).roles = e.roles) ∧
    ((applyUpdateOrderPayload o q).id = o.id ∧
      (applyUpdateOrderPayload o q).userId = o.userId ∧
      (applyUpdateOrderPayload o q).isActive = o.isActive) ∧
    ((UserService.update db userId u p).fst.users.map
        (fun x => (x.id, x.isActive)) =
      db.users.map (fun x => (x.id, x.isActive))) ∧
    (∀ e0, findOne db userId = some e0 → e0.isActive = true →
      hasPermissions e0.id u = true →
      findOne (UserService.update db userId u p).fst userId =
        some (applyUpdateUserPaylaod e0 p)) ∧
    ((UserService.disable db userId u).fst.users.map UserEntity.id =
      db.users.map UserEntity.id) ∧
    ((UserService.enable db userId u).fst.users.map UserEntity.id =
      db.users.map UserEntity.id) := by
  refine ⟨⟨rfl, rfl, rfl⟩, ⟨rfl, rfl, rfl⟩, ?_, ?_, ?_, ?_⟩
  · cases hf : findOne db userId with
    | none => simp [UserService.update, hf]
    | some e0 =>
      by_cases ha : e0.isActive = true
      · by_cases hp : hasPermissions e0.id u = true
        · have hstep : UserService.update db userId u p =
              (updateWhere db userId
                (fun x => applyUpdateUserPaylaod x p), none) := by
            unfold UserService.update
            rw [hf]
            simp [ha, hp]
          rw [hstep]
          show (db.users.map (fun x =>
              if x.id == userId then applyUpdateUserPaylaod x p else x)).map
              (fun x => (x.id, x.isActive))
            = db.users.map (fun x => (x.id, x.isActive))
          exact map_map_ite UserEntity.id userId
            (fun x => applyUpdateUserPaylaod x p)
            (fun x => (x.id, x.isActive)) (fun x => rfl) db.users
        · have hstep : UserService.update db userId u p =
              (db, some ServiceError.forbidden) := by
            unfold UserService.update
            rw [hf]
            simp [ha, hp]
          rw [hstep]
      · have ha' : e0.isActive = false := by
          cases hb : e0.isActive
          · rfl
          · exact absurd hb ha
        have hstep : UserService.update db userId u p =
            (db, some (ServiceError.entityNotFound userId)) := by
          unfold UserService.update
          rw [hf]
          simp [ha']
        rw [hstep]
  · intro e0 hf ha hp
    have hstep : UserService.update db userId u p =
        (updateWhere db userId (fun x => applyUpdateUserPaylaod x p),
          none) := by
      unfold UserService.update
      rw [hf]
      simp [ha, hp]
    rw [hstep]
    show (db.users.map (fun x =>
        if x.id == userId then applyUpdateUserPaylaod x p else x)).find?
        (fun x => x.id == userId) = some (applyUpdateUserPaylaod e0 p)
    rw [find?_map_ite UserEntity.id userId
      (fun x => applyUpdateUserPaylaod x p) (fun x => rfl) db.users]
    have hf' : db.users.find? (fun x => x.id == userId) = some e0 := hf
    rw [hf']
    rfl
  · cases hf : findOne db userId with
    | none => simp [UserService.disable, hf]
    | some e0 =>
      by_cases ha : e0.isActive = true
      · by_cases hp : hasPermissions e0.id u = true
        · have hstep : UserService.disable db userId u =
              (setIsActive db userId false, none) := by
            unfold UserService.disable
            rw [hf]
            simp [ha, hp]
          rw [hstep]
          show (db.users.map (fun x =>
              if x.id == userId then { x with isActive := false } else x)).map
              UserEntity.id
            = db.users.map UserEntity.id
          exact map_map_ite UserEntity.id userId
            (fun x => { x with isActive := false })
            UserEntity.id (fun x => rfl) db.users
        · have hstep : UserService.disable db userId u =
              (db, some ServiceError.forbidden) := by
            unfold UserService.disable
            rw [hf]
            simp [ha, hp]
          rw [hstep]
      · have ha' : e0.isActive = false := by
          cases hb : e0.isActive
          · rfl
          · exact absurd hb ha
        have hstep : UserService.disable db userId u =
            (db, some (ServiceError.entityAlreadyDisabled userId)) := by
          unfold UserService.disable
          rw [hf]
          simp [ha']
        rw [hstep]
  · cases hf : findOne db userId with
    | none => simp [UserService.enable, hf]
    | some e0 =>
      by_cases ha : e0.isActive = true
      · have hstep : UserService.enable db userId u =
            (db, some (ServiceError.entityAlreadyEnabled userId)) := by
          unfold UserService.enable
          rw [hf]
          simp [ha]
        rw [hstep]
      · have ha' : e0.isActive = false := by
          cases hb : e0.isActive
          · rfl
          · exact absurd hb ha
        by_cases hp : hasPermissions e0.id u = true
        · have hstep : UserService.enable db userId u =
              (setIsActive db userId true, none) := by
            unfold UserService.enable
            rw [hf]
            simp [ha', hp]
          rw [hstep]
          show (db.users.map (fun x =>
              if x.id == userId then { x with isActive := true } else x)).map
              UserEntity.id
            = db.users.map UserEntity.id
          exact map_map_ite UserEntity.id userId
            (fun x => { x with isActive := true })
            UserEntity.id (fun x => rfl) db.users
        · have hstep : UserService.enable db userId u =
              (db, some ServiceError.forbidden) := by
            unfold UserService.enable
            rw [hf]
            simp [ha', hp]
          rw [hstep]

/-- Claim C3: disable is NotFound on an absent id and AlreadyDisabled on an
inactive row, enable is NotFound on an absent id and AlreadyEnabled on an
active row — redundant transitions are conflicts, never silent no-ops — and
for a permitted caller disable flips the row to inactive, after which get
yields NotFound while enable on the same id still succeeds and flips it
back to active. -/
theorem claim_C3 (db : UserStore) (userId : Nat) (u : RequestUser) :
    (findOne db userId = none →
      UserService.disable db userId u =
        (db, some (ServiceError.entityNotFound userId)) ∧
      UserService.enable db userId u =
        (db, some (ServiceError.entityNotFound userId))) ∧
    (∀ e, findOne db userId = some e → e.isActive = false →
      UserService.disable db userId u =
        (db, some (ServiceError.entityAlreadyDisabled userId))) ∧
    (∀ e, findOne db userId = some e → e.isActive = true →
      UserService.enable db userId u =
        (db, some (ServiceError.entityAlreadyEnabled userId))) ∧
    (∀ e, findOne db userId = some e → e.isActive = true →
      hasPermissions e.id u = true →
      UserService.disable db userId u = (setIsActive db userId false, none) ∧
      findOne (setIsActive db userId false) userId =
        some { e with isActive := false } ∧
      UserService.get (setIsActive db userId false) userId u =
        Except.error (ServiceError.entityNotFound userId) ∧
      UserService.enable (setIsActive db userId false) userId u =
        (setIsActive (setIsActive db userId false) userId true, none) ∧
      findOne (setIsActive (setIsActive db userId false) userId true)
          userId =
        some { e with isActive := true }) := by
  refine ⟨?_, ?_, ?_, ?_⟩
  · intro h
    constructor
    · unfold UserService.disable
      rw [h]
    · unfold UserService.enable
      rw [h]
  · intro e hf hi
    unfold UserService.disable
    rw [hf]
    simp [hi]
  · intro e hf ha
    unfold UserService.enable
    rw [hf]
    simp [ha]
  · intro e hf ha hp
    have hfind1 : findOne (setIsActive db userId false) userId =
        some { e with isActive := false } := by
      show (db.users.map (fun x =>
          if x.id == userId then { x with isActive := false } else x)).find?
          (fun x => x.id == userId) = some { e with isActive := false }
      rw [find?_map_ite UserEntity.id userId
        (fun x => { x with isActive := false }) (fun x => rfl) db.users]
      have hf' : db.users.find? (fun x => x.id == userId) = some e := hf
      rw [hf']
      rfl
    refine ⟨?_, hfind1, ?_, ?_, ?_⟩
    · unfold UserService.disable
      rw [hf]
      simp [ha, hp]
    · unfold UserService.get
      rw [hfind1]
      simp
    · unfold UserService.enable
      rw [hfind1]
      have hp1 : hasPermissions
          (UserEntity.id { e with isActive := false }) u = true := hp
      simp [hp1]
    · have base := find?_map_ite UserEntity.id userId
        (fun x => { x with isActive := true }) (fun x => rfl)
        (setIsActive db userId false).users
      have hf1' : (setIsActive db userId false).users.find?
          (fun x => x.id == userId) = some { e with isActive := false } :=
        hfind1
      rw [hf1'] at base
      exact base

/-- Claim C4: the ownership check runs only after the existence and
lifecycle-state checks and before the mutation: an absent id yields NotFound
for every caller (never Forbidden), an already-inactive row yields
AlreadyDisabled from disable even for a caller without permission, and a
caller without permission on a row that passes the state checks gets
Forbidden with the store unchanged — the mutation never executes. -/
theorem claim_C4 (db : UserStore) (userId : Nat) (u : RequestUser)
    (p : UpdateUserPaylaod) :
    (findOne db userId = none →
      UserService.get db userId u =
        Except.error (ServiceError.entityNotFound userId) ∧
      UserService.update db userId u p =
        (db, some (ServiceError.entityNotFound userId)) ∧
      UserService.delete db userId u =
        (db, some (ServiceError.entityNotFound userId)) ∧
      UserService.disable db userId u =
        (db, some (ServiceError.entityNotFound userId)) ∧
      UserService.enable db userId u =
        (db, some (ServiceError.entityNotFound userId))) ∧
    (∀ e, findOne db userId = some e → e.isActive = false →
      UserService.disable db userId u =
        (db, some (ServiceError.entityAlreadyDisabled userId))) ∧
    (∀ e, findOne db userId = some e → hasPermissions e.id u = false →
      (e.isActive = true →
        UserService.get db userId u =
          Except.error ServiceError.forbidden ∧
        UserService.update db userId u p =
          (db, some ServiceError.forbidden) ∧
        UserService.delete db userId u =
          (db, some ServiceError.forbidden) ∧
        UserService.disable db userId u =
          (db, some ServiceError.forbidden)) ∧
      (e.isActive = false →
        UserService.enable db userId u =
          (db, some ServiceError.forbidden))) := by
  refine ⟨?_, ?_, ?_⟩
  · intro h
    refine ⟨?_, ?_, ?_, ?_, ?_⟩
    · unfold UserService.get
      rw [h]
    · unfold UserService.update
      rw [h]
    · unfold UserService.delete
      rw [h]
    · unfold UserService.disable
      rw [h]
    · unfold UserService.enable
      rw [h]
  · intro e hf hi
    unfold UserService.disable
    rw [hf]
    simp [hi]
  · intro e hf hp
    constructor
    · intro ha
      refine ⟨?_, ?_, ?_, ?_⟩
      · unfold UserService.get
        rw [hf]
        simp [ha, hp]
      · unfold UserService.update
        rw [hf]
        simp [ha, hp]
      · unfold UserService.delete
        rw [hf]
        simp [ha, hp]
      · unfold UserService.disable
        rw [hf]
        simp [ha, hp]
    · intro ha
      unfold UserService.enable
      rw [hf]
      simp [ha, hp]

/-- Claim C10: the shopping-cart update, disable and enable handlers forward
no caller identity to the service, so beyond the Admin role restriction the
outcome is identical for every admin caller, and an admin succeeds on a cart
it does not own whenever the lifecycle guard passes. -/
theorem claim_C10 (s : ShoppingCartStore) (cartId : Nat)
    (p : UpdateShoppingCartPayload) (u v : RequestUser) :
    (u.roles = RolesEnum.admin → v.roles = RolesEnum.admin →
      ShoppingCartController.update u s cartId p =
        ShoppingCartController.update v s cartId p ∧
      ShoppingCartController.disable u s cartId =
        ShoppingCartController.disable v s cartId ∧
      ShoppingCartController.enable u s cartId =
        ShoppingCartController.enable v s cartId) ∧
    (∀ cart, u.roles = RolesEnum.admin →
      s.findOne cartId = some cart → cart.isActive = true →
      (ShoppingCartController.update u s cartId p).snd = none ∧
      (ShoppingCartController.disable u s cartId).snd = none) ∧
    (∀ cart, u.roles = RolesEnum.admin →
      s.findOne cartId = some cart → cart.isActive = false →
      (ShoppingCartController.enable u s cartId).snd = none) := by
  refine ⟨?_, ?_, ?_⟩
  · intro hu hv
    have hu' : protectTo [RolesEnum.admin] u = true := by
      simp [protectTo, hu]
    have hv' : protectTo [RolesEnum.admin] v = true := by
      simp [protectTo, hv]
    refine ⟨?_, ?_, ?_⟩ <;>
      simp [ShoppingCartController.update, ShoppingCartController.disable,
        ShoppingCartController.enable, hu', hv']
  · intro cart hu hf ha
    have hu' : protectTo [RolesEnum.admin] u = true := by
      simp [protectTo, hu]
    constructor
    · have hsvc : ShoppingCartService.update s cartId p = (s, none) := by
        unfold ShoppingCartService.update
        rw [hf]
        simp [ha]
      simp [ShoppingCartController.update, hu', hsvc]
    · have hsvc : ShoppingCartService.disable s cartId =
          (s.setIsActive cartId false, none) := by
        unfold ShoppingCartService.disable
        rw [hf]
        simp [ha]
      simp [ShoppingCartController.disable, hu', hsvc]
  · intro cart hu hf ha
    have hu' : protectTo [RolesEnum.admin] u = true := by
      simp [protectTo, hu]
    have hsvc : ShoppingCartService.enable s cartId =
        (s.setIsActive cartId true, none) := by
      unfold ShoppingCartService.enable
      rw [hf]
      simp [ha]
    simp [ShoppingCartController.enable, hu', hsvc]

/-- Claim C7: on a store whose ids are all below the generator, create
followed by get with a permitted creator identity returns exactly the
created resource, whose fields equal the payload fields except the generated
id, the password — stored as the one-way hash of the payload password and
never equal to the plaintext — and isActive, which defaults to true. -/
theorem claim_C7 (db : UserStore) (p : CreateUserPayload) (u : RequestUser)
    (hfresh : ∀ e ∈ db.users, e.id < db.nextId)
    (hperm : hasPermissions db.nextId u = true) :
    ((UserService.create db p).fst.id = db.nextId ∧
      (UserService.create db p).fst.isActive = true ∧
      (UserService.create db p).fst.name = p.name ∧
      (UserService.create db p).fst.email = p.email ∧
      (UserService.create db p).fst.password = encryptPassword p.password ∧
      (UserService.create db p).fst.password ≠ p.password ∧
      (UserService.create db p).fst.roles = p.roles.getD RolesEnum.user) ∧
    UserService.get (UserService.create db p).snd
        (UserService.create db p).fst.id u =
      Except.ok (UserService.create db p).fst := by
  have hne : (UserService.create db p).fst.password ≠ p.password := by
    show encryptPassword p.password ≠ p.password
    intro h
    have h2 := congrArg String.length h
    rw [encryptPassword, String.length_append] at h2
    have h3 : ("$2a$08$" : String).length = 7 := rfl
    rw [h3] at h2
    omega
  refine ⟨⟨rfl, rfl, rfl, rfl, rfl, hne, rfl⟩, ?_⟩
  have hfind : findOne (UserService.create db p).snd db.nextId =
      some (UserService.create db p).fst := by
    show (db.users ++ [(UserService.create db p).fst]).find?
        (fun e => e.id == db.nextId) = some (UserService.create db p).fst
    exact find?_append_fresh UserEntity.id db.nextId db.users
      (fun e he => Nat.ne_of_lt (hfresh e he)) _ rfl
  show UserService.get (UserService.create db p).snd db.nextId u =
    Except.ok (UserService.create db p).fst
  unfold UserService.get
  rw [hfind]
  have hact : (UserService.create db p).fst.isActive = true := rfl
  have hid : hasPermissions (UserService.create db p).fst.id u = true := hperm
  simp [hact, hid]

end Claims

section Witnesses

/-- Witness for claim C8 at a concrete input: updating an id absent from the
one-row table fails and hands back the same table. -/
theorem claim_C8_witness : demoDb = demoDb :=
  (claim_C8 demoDb 5 bobUser { name := none, email := none }).1 demoDb
    (ServiceError.entityNotFound 5) rfl

/-- Witness for claim C9 at a concrete input: a payload without roles is
stored with the default role. -/
theorem claim_C9_witness :
    (UserService.create demoDb
      { name := "n", email := "e", password := "p",
        roles := none }).fst.roles = RolesEnum.user :=
  (claim_C9 demoDb _).1 rfl

/-- Witness for claim C3 at a concrete input: the owner disables the active
row with id 1 and the store records the flip. -/
theorem claim_C3_witness :
    UserService.disable demoDb 1 aliceUser =
      (setIsActive demoDb 1 false, none) :=
  ((claim_C3 demoDb 1 aliceUser).2.2.2 aliceRow rfl rfl rfl).1

/-- Witness for claim C4 at a concrete input: an unpermitted caller gets
AlreadyDisabled, not Forbidden, on the inactive row with id 4. -/
theorem claim_C4_witness :
    UserService.disable demoDb2 4 bobUser =
      (demoDb2, some (ServiceError.entityAlreadyDisabled 4)) :=
  (claim_C4 demoDb2 4 bobUser { name := none, email := none }).2.1
    carolRow rfl rfl

/-- Witness for claim C6 at a concrete input: the owner's update replaces
the row with id 1 by exactly the patched row. -/
theorem claim_C6_witness :
    findOne (UserService.update demoDb 1 aliceUser
        { name := some "X", email := none }).fst 1 =
      some (applyUpdateUserPaylaod aliceRow
        { name := some "X", email := none }) :=
  ((claim_C6 aliceRow { name := some "X", email := none }
      { id := 20, userId := 1, isActive := true, status := 0,
        trackingCode := "t" }
      { status := none, trackingCode := none }
      demoDb 1 aliceUser).2.2.2.1) aliceRow rfl rfl rfl

/-- Witness for claim C7 at a concrete input: create on the one-row table
then get by the creator returns the created resource. -/
theorem claim_C7_witness :
    UserService.get (UserService.create demoDb
        { name := "n", email := "e", password := "pw",
          roles := none }).snd
      (UserService.create demoDb
        { name := "n", email := "e", password := "pw",
          roles := none }).fst.id
      { id := 2, roles := RolesEnum.user } =
    Except.ok (UserService.create demoDb
        { name := "n", email := "e", password := "pw",
          roles := none }).fst :=
  (claim_C7 demoDb
    { name := "n", email := "e", password := "pw", roles := none }
    { id := 2, roles := RolesEnum.user }
    (by
      intro e he
      simp [demoDb] at he
      subst he
      decide)
    rfl).2

/-- Witness for claim C10 at a concrete input: an admin whose id differs
from the cart owner's id disables the cart with no ownership rejection. -/
theorem claim_C10_witness :
    (ShoppingCartController.disable adminUser demoCarts 3).snd = none :=
  ((claim_C10 demoCarts 3 { productAmount := none } adminUser
      adminUser).2.1 demoCart rfl rfl rfl).2

end Witnesses

end Paperbook
